import Mathlib

/-! Shallow embedding of the aerosol-distribution discretization logic of
`aerosol.py` (the helper `dist_to_conc` and the constructor of
`AerosolSpecies`), together with theorems checking the specification's
claims against it.

Modelling conventions:
* Python floats are modelled as real numbers; `numpy` arrays as lists of reals.
* The lognormal distribution objects come from the external `lognorm` module
  (not part of this repository's sources); the constructor only reads their
  `mu`, `sigma`, `mus`, `sigmas` attributes and calls their `pdf` method, so
  they are embedded as structures carrying those fields with an abstract
  `pdf : ℝ → ℝ`.
* A constructor run either returns the populated object or raises a Python
  exception; this is modelled with `Except PyError AerosolSpecies`.
* The Python parameter `bins` can be `None`, an `int`, or a list/array of
  edge values; this is the sum type `BinsArg`.
* `not r_min` on a float-or-None value is truthiness: it holds exactly when
  the value is `None` or `0` (predicate `falsy`).
* `np.log10` applied to `None` raises a `TypeError`; applied to a float it is
  `Real.logb 10`.  Indexing an empty array raises `IndexError`.
* In the `MultiModeLognorm` branch of the source, the local variable `nbins`
  is read (line 150) but is only ever assigned in the `Lognorm` branch
  (line 127); Python therefore raises `UnboundLocalError` (a subclass of
  `NameError`), modelled as `PyError.nameError`.
-/

namespace ParcelModel

/-- Python exception kinds observable from `AerosolSpecies.__init__`. -/
inductive PyError where
  | valueError (msg : String)
  | typeError
  | nameError
  | indexError
deriving DecidableEq

/-- Interface of the external single-mode `Lognorm` object as consumed by
`aerosol.py`: parameters `mu`, `sigma`, `N` and the method `pdf`. -/
structure Lognorm where
  mu : ℝ
  sigma : ℝ
  N : ℝ
  pdf : ℝ → ℝ

/-- Interface of the external `MultiModeLognorm` object as consumed by
`aerosol.py`: per-mode parameter arrays `mus`, `sigmas` and the weighted
multi-mode `pdf` method. -/
structure MultiModeLognorm where
  mus : List ℝ
  sigmas : List ℝ
  pdf : ℝ → ℝ

/-- The polymorphic `distribution` argument of the constructor: a dict with
keys `r_drys`/`Nis`, a `Lognorm`, a `MultiModeLognorm`, or anything else. -/
inductive DistInput where
  | dict (r_drys : List ℝ) (Nis : List ℝ)
  | lognorm (d : Lognorm)
  | multi (d : MultiModeLognorm)
  | other

/-- The `bins` keyword argument: absent (`None`), an `int`, or an explicit
list/array of bin edges. -/
inductive BinsArg where
  | none
  | num (n : ℕ)
  | edges (rs : List ℝ)

/-- The attributes of a successfully constructed `AerosolSpecies` object.
The field `N` is an `Option` because the source only assigns `self.N` in the
dict branch; for the parametric branches the attribute never exists. -/
structure AerosolSpecies where
  species : String
  kappa : ℝ
  rho : Option ℝ
  mw : Option ℝ
  bins : BinsArg
  r_drys : List ℝ
  rs : List ℝ
  Nis : List ℝ
  N : Option ℝ
  nr : ℕ

/-- Does an `Except` result hold a raised `ValueError`?  Used to distinguish
the documented `InvalidConfiguration` failure from other exceptions. -/
def errIsValueError : Except PyError AerosolSpecies → Bool
  | .error (.valueError _) => true
  | _ => false

/-- Python truthiness test `not x` for a float-or-None value: true on `None`
and on `0.0`. -/
def falsy : Option ℝ → Prop
  | Option.none => True
  | some x => x = 0

open Classical

noncomputable section

/-- Model of `np.log10` applied to a float-or-None argument: `TypeError` on
`None`, otherwise base-10 logarithm. -/
def np_log10 : Option ℝ → Except PyError ℝ
  | Option.none => .error .typeError
  | some x => .ok (Real.logb 10 x)

/-- Model of `np.logspace(lr, rr, num=num)`: `num` points whose base-10
logarithms are uniformly spaced from `lr` to `rr` inclusive. -/
def logspace (lr rr : ℝ) (num : ℕ) : List ℝ :=
  (List.range num).map fun (i : ℕ) => (10 : ℝ) ^ (lr + (i : ℝ) * (rr - lr) / ((num : ℝ) - 1))

/-- The bracket computation shared by the two parametric branches
(source lines 120-124 and 144-147): if both `r_min` and `r_max` are falsy,
take base-10 logs of the default bracket `[lo, hi]`; otherwise apply
`np.log10` to `r_min` and then `r_max` (raising `TypeError` on a `None`). -/
def paramBracket (lo hi : ℝ) (r_min r_max : Option ℝ) : Except PyError (ℝ × ℝ) :=
  if falsy r_min ∧ falsy r_max then
    .ok (Real.logb 10 lo, Real.logb 10 hi)
  else
    (np_log10 r_min).bind fun lr => (np_log10 r_max).map fun rr => (lr, rr)

/-- Source line 128: `np.sqrt(a*b)` for consecutive edge pairs, then the
no-op slice `[0:nbins]` with `nbins = len(rs)`. -/
def midsOf (rs : List ℝ) : List ℝ :=
  ((rs.zip rs.tail).map fun p => Real.sqrt (p.1 * p.2)).take rs.length

/-- Source line 129: the inlined trapezoid estimate
`0.5*(b-a)*(pdf(a)+pdf(b))` for consecutive edge pairs, then the no-op slice
`[0:nbins]`. -/
def concsOf (pdf : ℝ → ℝ) (rs : List ℝ) : List ℝ :=
  ((rs.zip rs.tail).map fun p => 0.5 * (p.2 - p.1) * (pdf p.1 + pdf p.2)).take rs.length

/-- Source lines 127-130 together with the final unit correction of lines
157-160, for the single-mode `Lognorm` branch once the edge array `rs` is
known: bin centers are geometric means scaled to meters, concentrations are
trapezoid estimates scaled by `1e6`, `self.N` is never assigned, and `nr` is
the number of dry radii. -/
def lognormFinish (species : String) (kappa : ℝ) (rho mw : Option ℝ) (bins : BinsArg)
    (pdf : ℝ → ℝ) (rs : List ℝ) : AerosolSpecies :=
  let r_drys := (midsOf rs).map (· * 1e-6)
  ⟨species, kappa, rho, mw, bins, r_drys, rs, (concsOf pdf rs).map (· * 1e6),
    Option.none, r_drys.length⟩

/-- Model of `dist_to_conc(dist, r_min, r_max, rule)` from `aerosol.py`
lines 15-26; the distribution enters only through its `pdf` method. -/
def dist_to_conc (pdf : ℝ → ℝ) (r_min r_max : ℝ) (rule : String) : ℝ :=
  let width := r_max - r_min
  if rule = "trapezoid" then
    width * 0.5 * (pdf r_max + pdf r_min)
  else if rule = "simpson" then
    (width / 6) * (pdf r_max + pdf r_min + 4 * pdf (0.5 * (r_max + r_min)))
  else
    width * pdf (0.5 * (r_max + r_min))

/-- Model of `AerosolSpecies.__init__` (source lines 88-160).  Returns the
populated object or the Python exception the constructor raises. -/
def mkAerosolSpecies (species : String) (distribution : DistInput) (kappa : ℝ)
    (rho mw : Option ℝ) (bins : BinsArg) (r_min r_max : Option ℝ) :
    Except PyError AerosolSpecies :=
  match distribution with
  | .dict r_drys_in Nis_in =>
      let r_drys := r_drys_in.map (· * 1e-6)
      match r_drys.head? with
      | Option.none => .error .indexError
      | some r0 =>
          let rs := [r0 * 0.9, r0 * 1.1].map (· * 1e6)
          .ok ⟨species, kappa, rho, mw, bins, r_drys, rs, Nis_in.map (· * 1e6),
            some Nis_in.sum, r_drys.length⟩
  | .lognorm d =>
      match bins with
      | BinsArg.none =>
          .error (.valueError ("Need to specify bins argument if passing a Lognorm distribution"))
      | .edges es => .ok (lognormFinish species kappa rho mw bins d.pdf es)
      | .num n =>
          match paramBracket (d.mu / (10 * d.sigma)) (d.mu * 10 * d.sigma) r_min r_max with
          | .error e => .error e
          | .ok (lr, rr) =>
              .ok (lognormFinish species kappa rho mw bins d.pdf (logspace lr rr (n + 1)))
  | .multi d =>
      match bins with
      | BinsArg.none =>
          .error (.valueError ("Need to specify bins argument if passing a MultiModeLognorm distribution"))
      | .edges _ =>
          match d.mus.head?, d.sigmas.head?, d.mus.getLast?, d.sigmas.getLast? with
          | some _, some _, some _, some _ => .error .nameError
          | _, _, _, _ => .error .indexError
      | .num _ =>
          match d.mus.head?, d.sigmas.head?, d.mus.getLast?, d.sigmas.getLast? with
          | some smallMu, some smallSigma, some bigMu, some bigSigma =>
              match paramBracket (smallMu / (10 * smallSigma)) (bigMu * 10 * bigSigma) r_min r_max with
              | .error e => .error e
              | .ok _ => .error .nameError
          | _, _, _, _ => .error .indexError
  | .other =>
      .error (.valueError ("Could not work with size distribution of unsupported type"))

end

end ParcelModel

namespace ParcelModel

/-! ## General lemmas about the embedded operations -/

theorem falsy_none : falsy Option.none := True.intro

theorem paramBracket_falsy (lo hi : ℝ) (r_min r_max : Option ℝ)
    (h1 : falsy r_min) (h2 : falsy r_max) :
    paramBracket lo hi r_min r_max = .ok (Real.logb 10 lo, Real.logb 10 hi) := by
  unfold paramBracket
  rw [if_pos ⟨h1, h2⟩]

theorem logspace_length (lr rr : ℝ) (num : ℕ) : (logspace lr rr num).length = num := by
  unfold logspace
  simp only [List.length_map, List.length_range]

theorem logspace_getElem (lr rr : ℝ) (num : ℕ) (i : ℕ) (h : i < (logspace lr rr num).length) :
    (logspace lr rr num)[i] = (10 : ℝ) ^ (lr + (i : ℝ) * (rr - lr) / ((num : ℝ) - 1)) := by
  unfold logspace
  simp only [List.getElem_map, List.getElem_range]

theorem logspace_pos (lr rr : ℝ) (num : ℕ) (i : ℕ) (h : i < (logspace lr rr num).length) :
    0 < (logspace lr rr num)[i] := by
  rw [logspace_getElem]
  exact Real.rpow_pos_of_pos (by norm_num) _

theorem logspace_sorted (lr rr : ℝ) (num : ℕ) (h : lr < rr) :
    (logspace lr rr num).Pairwise (· < ·) := by
  rw [List.pairwise_iff_getElem]
  intro i j hi hj hij
  rw [logspace_length] at hj
  rw [logspace_getElem, logspace_getElem]
  rw [Real.rpow_lt_rpow_left_iff (by norm_num)]
  have hd : (0:ℝ) < (num : ℝ) - 1 := by
    have : (2:ℕ) ≤ num := by omega
    have : (2:ℝ) ≤ (num : ℝ) := by exact_mod_cast this
    linarith
  have hstep : (0:ℝ) < (rr - lr) / ((num : ℝ) - 1) := div_pos (by linarith) hd
  have hij' : (i : ℝ) < (j : ℝ) := by exact_mod_cast hij
  rw [mul_div_assoc, mul_div_assoc]
  have := mul_lt_mul_of_pos_right hij' hstep
  linarith

theorem midsOf_length (rs : List ℝ) : (midsOf rs).length = rs.length - 1 := by
  simp [midsOf]

theorem concsOf_length (pdf : ℝ → ℝ) (rs : List ℝ) :
    (concsOf pdf rs).length = rs.length - 1 := by
  simp [concsOf]

theorem midsOf_getElem (rs : List ℝ) (i : ℕ) (h : i + 1 < rs.length)
    (hm : i < (midsOf rs).length) (h1 : i < rs.length) :
    (midsOf rs)[i] = Real.sqrt (rs[i] * rs[i + 1]) := by
  simp [midsOf, List.getElem_zip]

theorem lognormFinish_spec (species : String) (kappa : ℝ) (rho mw : Option ℝ) (bins : BinsArg)
    (pdf : ℝ → ℝ) (rs : List ℝ)
    (hpos : ∀ (i : ℕ) (h : i < rs.length), 0 < rs[i])
    (hsort : rs.Pairwise (· < ·)) :
    (lognormFinish species kappa rho mw bins pdf rs).rs = rs ∧
    (lognormFinish species kappa rho mw bins pdf rs).r_drys.length = rs.length - 1 ∧
    (lognormFinish species kappa rho mw bins pdf rs).Nis.length = rs.length - 1 ∧
    (lognormFinish species kappa rho mw bins pdf rs).r_drys.Pairwise (· ≤ ·) ∧
    ∀ i, i + 1 < rs.length →
      (lognormFinish species kappa rho mw bins pdf rs).r_drys.getD i 0
        = Real.sqrt (rs.getD i 0 * rs.getD (i + 1) 0) * 1e-6 := by
  have hmono := List.pairwise_iff_getElem.mp hsort
  refine ⟨rfl, ?_, ?_, ?_, ?_⟩
  · simp [lognormFinish, midsOf_length]
  · simp [lognormFinish, concsOf_length]
  · simp only [lognormFinish]
    rw [List.pairwise_iff_getElem]
    intro i j hi hj hij
    rw [List.length_map, midsOf_length] at hi hj
    have hi1 : i + 1 < rs.length := by omega
    have hj1 : j + 1 < rs.length := by omega
    have hi0 : i < rs.length := by omega
    have hj0 : j < rs.length := by omega
    have hmi : i < (midsOf rs).length := by rw [midsOf_length]; omega
    have hmj : j < (midsOf rs).length := by rw [midsOf_length]; omega
    rw [List.getElem_map, List.getElem_map, midsOf_getElem rs i hi1 hmi hi0,
      midsOf_getElem rs j hj1 hmj hj0]
    have p_i : 0 < rs[i] := hpos i hi0
    have p_i1 : 0 < rs[i + 1] := hpos (i + 1) hi1
    have p_j : 0 < rs[j] := hpos j hj0
    have p_j1 : 0 < rs[j + 1] := hpos (j + 1) hj1
    have e1 : rs[i] < rs[j] := hmono i j hi0 hj0 hij
    have e2 : rs[i + 1] < rs[j + 1] := hmono (i + 1) (j + 1) hi1 hj1 (by omega)
    have hprod : rs[i] * rs[i + 1] ≤ rs[j] * rs[j + 1] := by nlinarith
    have hsq := Real.sqrt_le_sqrt hprod
    exact mul_le_mul_of_nonneg_right hsq (by norm_num)
  · intro i hi1
    have hi0 : i < rs.length := by omega
    have hmi : i < (midsOf rs).length := by rw [midsOf_length]; omega
    have hlen : i < ((midsOf rs).map (· * 1e-6)).length := by
      rw [List.length_map, midsOf_length]; omega
    simp only [lognormFinish]
    rw [List.getD_eq_getElem _ _ hlen, List.getD_eq_getElem _ _ hi0,
      List.getD_eq_getElem _ _ hi1, List.getElem_map,
      midsOf_getElem rs i hi1 hmi hi0]

end ParcelModel

namespace ParcelModel

/-! ## Claim theorems -/

/-- C1: the claim states that for the pre-binned dict input variant the number
concentrations are taken exactly as given, with no final `1e6` unit
normalization, so that `AerosolSpecies("NaCl", ..., {r_drys: [0.25],
Nis: [1000.0]}, kappa=0.2)` yields `Nis == [1000.0]`.  The code violates this:
the `self.Nis *= 1e6` correction on line 159 sits after the whole `if/elif`
chain and therefore also applies to the dict branch, so the constructed
object stores `Nis == [1.0e9]` even though `N == 1000.0` (computed on line
110, before the scaling), `r_drys == [0.25e-6]` and `nr == 1`.  This theorem
evaluates the constructor at the claimed input and exhibits the divergence. -/
theorem C1_dict_unit_normalization_code_eval :
    mkAerosolSpecies ("NaCl") (.dict [0.25] [1000.0]) 0.2 Option.none Option.none BinsArg.none
      Option.none Option.none
    = .ok ⟨("NaCl"), 0.2, Option.none, Option.none, BinsArg.none, [0.25e-6], [0.225, 0.275],
        [1.0e9], some 1000.0, 1⟩ ∧
    (1000.0 : ℝ) < 1.0e9 := by
  constructor
  · simp [mkAerosolSpecies]
    norm_num
  · norm_num

/-- C2: the claim states that every successfully constructed `AerosolSpecies`
has an attribute `N` equal to the sum of the final `Nis` array.  The code
violates this in both directions: `self.N` is assigned only in the dict
branch (line 110), so a `Lognorm`-constructed object has no `N` attribute at
all (modelled as `N = none`); and in the dict branch `N` is computed before
the unconditional `*= 1e6` scaling, so for input `Nis = [2]` the final object
has `N = 2` while `sum(Nis) = 2e6`. -/
theorem C2_total_attribute_code_eval :
    (mkAerosolSpecies ("s") (.lognorm ⟨0.05, 2, 300, fun r => r⟩) 0.6 Option.none Option.none
      (.num 1) Option.none Option.none).map AerosolSpecies.N = .ok Option.none ∧
    (mkAerosolSpecies ("s") (.dict [1] [2]) 0.6 Option.none Option.none BinsArg.none
      Option.none Option.none).map (fun a => (a.N, a.Nis.sum)) = .ok (some 2, 2e6) ∧
    (2 : ℝ) < 2e6 := by
  refine ⟨?_, ?_, by norm_num⟩
  · simp [mkAerosolSpecies, paramBracket, falsy, lognormFinish, Except.map]
  · simp [mkAerosolSpecies, Except.map]
    norm_num

/-- C3: the claim states that a `MultiModeLognorm` input with an integer bin
count constructs successfully, following the same edge/quadrature procedure
as the single-mode variant.  The code cannot do this: line 150 reads the
local variable `nbins`, which is only ever assigned inside the `Lognorm`
branch (line 127), so every `MultiModeLognorm` construction raises
`UnboundLocalError` before any bins are produced.  This theorem evaluates the
constructor at a well-formed multi-mode input and shows the raised error. -/
theorem C3_multimode_nameError_code_eval :
    mkAerosolSpecies ("m") (.multi ⟨[0.01, 0.05], [1.5, 2.0], fun r => r⟩) 0.54 Option.none
      Option.none (.num 3) Option.none Option.none = .error .nameError := by
  simp [mkAerosolSpecies, paramBracket, falsy, List.getLast?]

/-- C4: the claim states that the `ValueError` (`InvalidConfiguration`) is
raised exactly when the bin count is missing for a parametric distribution or
the distribution type is unsupported, and that no other construction failure
occurs for well-formed inputs.  The positive cases hold (first three
conjuncts), but the final clause fails: a well-formed `MultiModeLognorm`
input with an integer bin count fails with `UnboundLocalError` (the `nbins`
slip of line 150), which is not a `ValueError`. -/
theorem C4_error_conditions_code_eval :
    errIsValueError (mkAerosolSpecies ("s") (.lognorm ⟨0.05, 2, 300, fun r => r⟩) 0.6
      Option.none Option.none BinsArg.none Option.none Option.none) = true ∧
    errIsValueError (mkAerosolSpecies ("s") (.multi ⟨[0.05], [2], fun r => r⟩) 0.6
      Option.none Option.none BinsArg.none Option.none Option.none) = true ∧
    errIsValueError (mkAerosolSpecies ("s") DistInput.other 0.6
      Option.none Option.none (.num 5) Option.none Option.none) = true ∧
    mkAerosolSpecies ("s") (.multi ⟨[0.1], [1.6], fun r => r⟩) 0.6 Option.none Option.none
      (.num 5) Option.none Option.none = .error .nameError ∧
    errIsValueError (Except.error PyError.nameError) = false := by
  refine ⟨rfl, rfl, rfl, ?_, rfl⟩
  simp [mkAerosolSpecies, paramBracket, falsy, List.getLast?]

/-- C5: for every single-mode `Lognorm` input with positive geometric mean,
geometric standard deviation greater than one and integer bin count `n`
(bounds left at their `None` defaults), the constructed object has `n+1` bin
edges, `n` dry radii and `n` concentrations, strictly increasing edges,
increasing dry radii, and each dry radius is the geometric mean of its
bracketing edges scaled by `1e-6`. -/
theorem C5_lognorm_binning (species : String) (mu sigma Nd : ℝ) (pdf : ℝ → ℝ) (kappa : ℝ)
    (rho mw : Option ℝ) (n : ℕ) (a : AerosolSpecies)
    (hmu : 0 < mu) (hsigma : 1 < sigma)
    (h : mkAerosolSpecies species (.lognorm ⟨mu, sigma, Nd, pdf⟩) kappa rho mw (.num n)
        Option.none Option.none = .ok a) :
    a.rs.length = n + 1 ∧ a.r_drys.length = n ∧ a.Nis.length = n ∧
    a.rs.Pairwise (· < ·) ∧ a.r_drys.Pairwise (· ≤ ·) ∧
    ∀ i, i < n → a.r_drys.getD i 0 = Real.sqrt (a.rs.getD i 0 * a.rs.getD (i + 1) 0) * 1e-6 := by
  have hmk : mkAerosolSpecies species (.lognorm ⟨mu, sigma, Nd, pdf⟩) kappa rho mw (.num n)
      Option.none Option.none
      = .ok (lognormFinish species kappa rho mw (.num n) pdf
          (logspace (Real.logb 10 (mu / (10 * sigma))) (Real.logb 10 (mu * 10 * sigma))
            (n + 1))) := by
    simp [mkAerosolSpecies, paramBracket, falsy]
  rw [hmk] at h
  obtain rfl := (Except.ok.inj h).symm
  have hs0 : (0:ℝ) < sigma := by linarith
  have h10s : (0:ℝ) < 10 * sigma := by linarith
  have h1 : (0:ℝ) < mu / (10 * sigma) := div_pos hmu h10s
  have hss : 1 < sigma * sigma := by nlinarith
  have h2 : mu / (10 * sigma) < mu * 10 * sigma := by
    rw [div_lt_iff₀ h10s]
    nlinarith [mul_lt_mul_of_pos_left hss hmu, mul_pos hmu (mul_pos hs0 hs0)]
  have hlr : Real.logb 10 (mu / (10 * sigma)) < Real.logb 10 (mu * 10 * sigma) :=
    Real.logb_lt_logb (by norm_num) h1 h2
  have hlen : (logspace (Real.logb 10 (mu / (10 * sigma))) (Real.logb 10 (mu * 10 * sigma))
      (n + 1)).length = n + 1 := logspace_length _ _ _
  obtain ⟨hrs, hd, hn, hp, hg⟩ := lognormFinish_spec species kappa rho mw (.num n) pdf
    (logspace (Real.logb 10 (mu / (10 * sigma))) (Real.logb 10 (mu * 10 * sigma)) (n + 1))
    (fun i hi => logspace_pos _ _ _ i hi) (logspace_sorted _ _ _ hlr)
  refine ⟨?_, ?_, ?_, ?_, hp, ?_⟩
  · rw [hrs]
    exact hlen
  · rw [hd, hlen]
    omega
  · rw [hn, hlen]
    omega
  · rw [hrs]
    exact logspace_sorted _ _ _ hlr
  · intro i hi
    rw [hrs]
    exact hg i (by rw [hlen]; omega)

/-- C5 witness: the theorem applied to the concrete input
`Lognorm(mu=0.05, sigma=2, N=300)` with 200 bins. -/
theorem C5_lognorm_binning_witness :
    (lognormFinish ("w") 0.6 Option.none Option.none (BinsArg.num 200) (fun r => r)
        (logspace (Real.logb 10 (0.05 / (10 * 2))) (Real.logb 10 (0.05 * 10 * 2))
          (200 + 1))).rs.length = 200 + 1 ∧
    (lognormFinish ("w") 0.6 Option.none Option.none (BinsArg.num 200) (fun r => r)
        (logspace (Real.logb 10 (0.05 / (10 * 2))) (Real.logb 10 (0.05 * 10 * 2))
          (200 + 1))).r_drys.length = 200 := by
  have h := C5_lognorm_binning ("w") 0.05 2 300 (fun r => r) 0.6 Option.none Option.none 200
    (lognormFinish ("w") 0.6 Option.none Option.none (BinsArg.num 200) (fun r => r)
      (logspace (Real.logb 10 (0.05 / (10 * 2))) (Real.logb 10 (0.05 * 10 * 2)) (200 + 1)))
    (by norm_num) (by norm_num) (by simp [mkAerosolSpecies, paramBracket, falsy])
  exact ⟨h.1, h.2.1⟩

end ParcelModel

namespace ParcelModel

/-- C6 counterexample: the claim says that whenever `r_min`/`r_max` are not
both absent, the edges are log-uniformly spaced over `[r_min, r_max]`.
Supplying only `r_min = 1` (with `r_max` left `None`) produces no edges at
all: the guard `not r_min and not r_max` fails, `np.log10(None)` is
evaluated, and construction aborts with a `TypeError`. -/
theorem C6_counterexample :
    mkAerosolSpecies ("s") (.lognorm ⟨0.05, 2, 300, fun r => r⟩) 0.6 Option.none Option.none
      (.num 2) (some 1) Option.none = .error .typeError := by
  simp [mkAerosolSpecies, paramBracket, falsy, np_log10, Except.bind, Except.map]

/-- C6 (amended): for a single-mode `Lognorm` input with an integer bin
count, the `bin_count+1` edges are log-uniformly spaced over the default
bracket `[mu/(10*sigma), mu*10*sigma]` whenever both `r_min` and `r_max` are
falsy (`None` or `0`); over `[r_min, r_max]` whenever both are supplied and
nonzero; and supplying exactly one nonzero bound (the other `None`) aborts
construction with a `TypeError` rather than producing edges. -/
theorem C6_amended_bracket_selection (species : String) (mu sigma Nd : ℝ) (pdf : ℝ → ℝ)
    (kappa : ℝ) (rho mw : Option ℝ) (n : ℕ) (r_min r_max : Option ℝ) (x y : ℝ) :
    (falsy r_min → falsy r_max →
      (mkAerosolSpecies species (.lognorm ⟨mu, sigma, Nd, pdf⟩) kappa rho mw (.num n)
          r_min r_max).map AerosolSpecies.rs
        = .ok (logspace (Real.logb 10 (mu / (10 * sigma))) (Real.logb 10 (mu * 10 * sigma))
            (n + 1))) ∧
    (x ≠ 0 → y ≠ 0 →
      (mkAerosolSpecies species (.lognorm ⟨mu, sigma, Nd, pdf⟩) kappa rho mw (.num n)
          (some x) (some y)).map AerosolSpecies.rs
        = .ok (logspace (Real.logb 10 x) (Real.logb 10 y) (n + 1))) ∧
    (x ≠ 0 →
      mkAerosolSpecies species (.lognorm ⟨mu, sigma, Nd, pdf⟩) kappa rho mw (.num n) (some x)
          Option.none = .error .typeError ∧
      mkAerosolSpecies species (.lognorm ⟨mu, sigma, Nd, pdf⟩) kappa rho mw (.num n) Option.none
          (some x) = .error .typeError) := by
  refine ⟨?_, ?_, ?_⟩
  · intro hf1 hf2
    simp only [mkAerosolSpecies]
    rw [paramBracket_falsy _ _ _ _ hf1 hf2]
    simp [lognormFinish, Except.map]
  · intro hx hy
    simp [mkAerosolSpecies, paramBracket, falsy, np_log10, hx, hy, lognormFinish,
      Except.bind, Except.map]
  · intro hx
    constructor <;>
      simp [mkAerosolSpecies, paramBracket, falsy, np_log10, hx, Except.bind, Except.map]

/-- C6 witness: the amended theorem applied at a concrete input, exercising
all three branches (both bounds absent; both bounds supplied as 2 and 3;
only `r_min = 2` supplied). -/
theorem C6_amended_bracket_selection_witness :
    (mkAerosolSpecies ("w6") (.lognorm ⟨0.05, 2, 300, fun r => r⟩) 0.6 Option.none Option.none
        (.num 2) Option.none Option.none).map AerosolSpecies.rs
      = .ok (logspace (Real.logb 10 (0.05 / (10 * 2))) (Real.logb 10 (0.05 * 10 * 2))
          (2 + 1)) ∧
    (mkAerosolSpecies ("w6") (.lognorm ⟨0.05, 2, 300, fun r => r⟩) 0.6 Option.none Option.none
        (.num 2) (some 2) (some 3)).map AerosolSpecies.rs
      = .ok (logspace (Real.logb 10 2) (Real.logb 10 3) (2 + 1)) ∧
    mkAerosolSpecies ("w6") (.lognorm ⟨0.05, 2, 300, fun r => r⟩) 0.6 Option.none Option.none
      (.num 2) (some 2) Option.none = .error .typeError := by
  have h := C6_amended_bracket_selection ("w6") 0.05 2 300 (fun r => r) 0.6 Option.none
    Option.none 2 Option.none Option.none 2 3
  exact ⟨h.1 falsy_none falsy_none, h.2.1 (by norm_num) (by norm_num),
    (h.2.2 (by norm_num)).1⟩

/-- C7: `dist_to_conc` computes the trapezoid estimate for `rule="trapezoid"`,
the Simpson estimate for `rule="simpson"`, and the rectangle (midpoint)
estimate for every other rule string, including `"midpoint"` (the fallback is
not an error); on a constant pdf equal to 2 over `[1, 3]` both the trapezoid
and the Simpson rules return exactly 4. -/
theorem C7_dist_to_conc_rules (pdf : ℝ → ℝ) (r_min r_max : ℝ) (rule : String) :
    dist_to_conc pdf r_min r_max ("trapezoid")
      = (r_max - r_min) * 0.5 * (pdf r_max + pdf r_min) ∧
    dist_to_conc pdf r_min r_max ("simpson")
      = ((r_max - r_min) / 6) * (pdf r_max + pdf r_min + 4 * pdf ((r_max + r_min) / 2)) ∧
    (rule ≠ "trapezoid" → rule ≠ "simpson" →
      dist_to_conc pdf r_min r_max rule = (r_max - r_min) * pdf ((r_max + r_min) / 2)) ∧
    dist_to_conc pdf r_min r_max ("midpoint") = (r_max - r_min) * pdf ((r_max + r_min) / 2) ∧
    dist_to_conc (fun _ => 2) 1 3 ("trapezoid") = 4 ∧
    dist_to_conc (fun _ => 2) 1 3 ("simpson") = 4 := by
  have hmid : (0.5 : ℝ) * (r_max + r_min) = (r_max + r_min) / 2 := by ring
  refine ⟨?_, ?_, ?_, ?_, ?_, ?_⟩
  · simp [dist_to_conc]
  · simp [dist_to_conc, hmid]
  · intro h1 h2
    simp [dist_to_conc, h1, h2, hmid]
  · simp [dist_to_conc, hmid]
  · simp [dist_to_conc]
    norm_num
  · simp [dist_to_conc]
    norm_num

/-- C7 witness: the fallback branch of the theorem applied at the concrete
unrecognized rule string `"rectangle"` on the constant pdf 2 over `[1, 3]`. -/
theorem C7_dist_to_conc_rules_witness :
    dist_to_conc (fun _ => (2:ℝ)) 1 3 ("rectangle") = ((3:ℝ) - 1) * 2 := by
  have h := (C7_dist_to_conc_rules (fun _ => (2:ℝ)) 1 3 ("rectangle")).2.2.1
    (by decide) (by decide)
  simpa using h

/-- C8: for every pre-binned dict input with at least one dry radius, the
synthesized bin edges are exactly the 2-element array `[0.9*r0, 1.1*r0]` in
micrometer units, where `r0` is the first supplied dry radius; the remaining
radii and the concentration list play no role in the edges. -/
theorem C8_dict_bin_edges (species : String) (kappa : ℝ) (rho mw : Option ℝ) (bins : BinsArg)
    (r_min r_max : Option ℝ) (r0 : ℝ) (rest Nis_in : List ℝ) :
    (mkAerosolSpecies species (.dict (r0 :: rest) Nis_in) kappa rho mw bins r_min r_max).map
      AerosolSpecies.rs = .ok [0.9 * r0, 1.1 * r0] := by
  simp [mkAerosolSpecies, Except.map]
  constructor <;> ring

/-- C9: for a parametric distribution with an integer bin count, the guard on
the default bracket tests truthiness, so falsy bounds (`None` or `0`) behave
exactly like absent bounds; and supplying exactly one nonzero bound (the
other `None`) makes `np.log10(None)` raise a `TypeError` — a failure distinct
from the `ValueError` used for `InvalidConfiguration` — for both the
`Lognorm` and the `MultiModeLognorm` branches. -/
theorem C9_truthiness_guard (species : String) (mu sigma Nd : ℝ) (pdf : ℝ → ℝ) (kappa : ℝ)
    (rho mw : Option ℝ) (n : ℕ) (r_min r_max : Option ℝ) (v : ℝ)
    (m0 s0 : ℝ) (mrest srest : List ℝ) (mpdf : ℝ → ℝ) :
    (falsy r_min → falsy r_max →
      mkAerosolSpecies species (.lognorm ⟨mu, sigma, Nd, pdf⟩) kappa rho mw (.num n) r_min r_max
        = mkAerosolSpecies species (.lognorm ⟨mu, sigma, Nd, pdf⟩) kappa rho mw (.num n)
            Option.none Option.none) ∧
    (v ≠ 0 →
      mkAerosolSpecies species (.lognorm ⟨mu, sigma, Nd, pdf⟩) kappa rho mw (.num n) (some v)
          Option.none = .error .typeError ∧
      mkAerosolSpecies species (.lognorm ⟨mu, sigma, Nd, pdf⟩) kappa rho mw (.num n) Option.none
          (some v) = .error .typeError ∧
      mkAerosolSpecies species (.multi ⟨m0 :: mrest, s0 :: srest, mpdf⟩) kappa rho mw (.num n)
          (some v) Option.none = .error .typeError) ∧
    errIsValueError (Except.error PyError.typeError) = false := by
  refine ⟨?_, ?_, rfl⟩
  · intro hf1 hf2
    simp only [mkAerosolSpecies]
    rw [paramBracket_falsy _ _ _ _ hf1 hf2, paramBracket_falsy _ _ _ _ falsy_none falsy_none]
  · intro hv
    obtain ⟨bm, hbm⟩ : ∃ x, (m0 :: mrest).getLast? = some x :=
      ⟨(m0 :: mrest).getLast (by simp), List.getLast?_eq_getLast _ (by simp)⟩
    obtain ⟨bs, hbs⟩ : ∃ x, (s0 :: srest).getLast? = some x :=
      ⟨(s0 :: srest).getLast (by simp), List.getLast?_eq_getLast _ (by simp)⟩
    refine ⟨?_, ?_, ?_⟩ <;>
      simp [mkAerosolSpecies, paramBracket, falsy, np_log10, hv, hbm, hbs,
        Except.bind, Except.map]

/-- C9 witness: the theorem applied at concrete inputs — `r_min = 0` behaves
exactly like an absent bound, and one-sided `r_min = 1` raises the
`TypeError` for both parametric variants. -/
theorem C9_truthiness_guard_witness :
    (mkAerosolSpecies ("w9") (.lognorm ⟨0.05, 2, 300, fun r => r⟩) 0.6 Option.none Option.none
        (.num 2) (some 0) Option.none
      = mkAerosolSpecies ("w9") (.lognorm ⟨0.05, 2, 300, fun r => r⟩) 0.6 Option.none
          Option.none (.num 2) Option.none Option.none) ∧
    mkAerosolSpecies ("w9") (.lognorm ⟨0.05, 2, 300, fun r => r⟩) 0.6 Option.none Option.none
      (.num 2) (some 1) Option.none = .error .typeError ∧
    mkAerosolSpecies ("w9") (.multi ⟨[0.05], [2], fun r => r⟩) 0.6 Option.none Option.none
      (.num 2) (some 1) Option.none = .error .typeError := by
  have h := C9_truthiness_guard ("w9") 0.05 2 300 (fun r => r) 0.6 Option.none Option.none 2
    (some 0) Option.none 1 0.05 2 ([]) ([]) (fun r => r)
  exact ⟨h.1 (by simp [falsy]) falsy_none, (h.2.1 (by norm_num)).1,
    (h.2.1 (by norm_num)).2.2⟩

/-- C10 counterexample: the claim says that with mismatched list lengths
construction still succeeds.  With an empty dry-radii list and a nonempty
concentration list the lengths are mismatched (0 vs 1), yet construction
fails: `self.r_drys[0]` on line 108 raises an `IndexError`. -/
theorem C10_counterexample :
    mkAerosolSpecies ("x") (.dict [] [1.0]) 0.1 Option.none Option.none BinsArg.none
      Option.none Option.none = .error .indexError := by
  simp [mkAerosolSpecies]

/-- C10 (amended): for every pre-binned dict input with a nonempty dry-radii
list, no validation relates the two list lengths: with mismatched lengths
construction still succeeds, `nr` is set to the length of the dry-radii
list, and `Nis` keeps its own different length, breaking the parallel-array
relationship. -/
theorem C10_amended_no_length_validation (species : String) (kappa : ℝ) (rho mw : Option ℝ)
    (bins : BinsArg) (r_min r_max : Option ℝ) (r0 : ℝ) (rest Nis_in : List ℝ)
    (hmm : (r0 :: rest).length ≠ Nis_in.length) :
    (mkAerosolSpecies species (.dict (r0 :: rest) Nis_in) kappa rho mw bins r_min r_max).map
      (fun a => (a.nr, a.Nis.length)) = .ok (rest.length + 1, Nis_in.length) ∧
    rest.length + 1 ≠ Nis_in.length := by
  constructor
  · simp [mkAerosolSpecies, Except.map]
  · simpa using hmm

/-- C10 witness: the amended theorem applied to the mismatched concrete input
`r_drys = [1]`, `Nis = [2, 3]`. -/
theorem C10_amended_no_length_validation_witness :
    (mkAerosolSpecies ("w10") (.dict [1] [2, 3]) 0.6 Option.none Option.none BinsArg.none
        Option.none Option.none).map (fun a => (a.nr, a.Nis.length)) = .ok (1, 2) ∧
    (1 : ℕ) ≠ 2 := by
  have h := C10_amended_no_length_validation ("w10") 0.6 Option.none Option.none BinsArg.none
    Option.none Option.none 1 ([]) ([2, 3]) (by decide)
  exact h

end ParcelModel
